import Mathlib

/-!
# Verification of the FreshLogic spoilage-risk engine

Shallow embedding of `backend/services/model_inference.py` (class `ModelService`):
the vapor-pressure-deficit feature calculator, the ensemble prediction pipeline
(`predict_spoilage`), the per-waypoint route evaluator (`predict_per_waypoint`)
and the route aggregator (`analyze_route_risks`).

Modelling conventions:
* Python floats are modelled as exact rationals (`ℚ`) throughout the inference
  pipeline; the one transcendental step (`np.exp` inside `calculate_vpd`) is
  modelled over the reals for the claim about the VPD formula itself, and as an
  uninterpreted parameter `e : ℚ → ℚ` inside the pipeline, over which all
  pipeline theorems are universally quantified.
* The pickled regressor and classifier are opaque learned artifacts; they are
  modelled as arbitrary functions from the input frame to their outputs, so all
  theorems quantify over every possible raw model output.
* Python's `round(x, n)` (round-half-to-even) is modelled exactly on the
  idealized decimal semantics by `pyRound`.
* Python dicts with optional keys are modelled by structures with `Option`
  fields (`none` = key absent / value `None`).
-/

section PyRound

variable {α : Type} [LinearOrderedField α] [FloorRing α]

/-- Python's built-in `round` to the nearest integer: round half to even
(banker's rounding), as a function on an ordered field. -/
def pyRoundInt (x : α) : ℤ :=
  if x - ⌊x⌋ < 1 / 2 then ⌊x⌋
  else if 1 / 2 < x - ⌊x⌋ then ⌊x⌋ + 1
  else if ⌊x⌋ % 2 = 0 then ⌊x⌋ else ⌊x⌋ + 1

/-- Python's `round(x, ndigits)` for `ndigits ≥ 0`, on exact values. -/
def pyRound (ndigits : ℕ) (x : α) : α :=
  (pyRoundInt (x * 10 ^ ndigits) : α) / 10 ^ ndigits

theorem pyRoundInt_ge_floor (x : α) : ⌊x⌋ ≤ pyRoundInt x := by
  unfold pyRoundInt; split_ifs <;> omega

theorem pyRoundInt_le_floor_add_one (x : α) : pyRoundInt x ≤ ⌊x⌋ + 1 := by
  unfold pyRoundInt; split_ifs <;> omega

theorem pyRoundInt_mono {x y : α} (h : x ≤ y) : pyRoundInt x ≤ pyRoundInt y := by
  have hf : ⌊x⌋ ≤ ⌊y⌋ := Int.floor_le_floor h
  rcases lt_or_eq_of_le hf with hlt | heq
  · have h1 := pyRoundInt_le_floor_add_one x
    have h2 := pyRoundInt_ge_floor y
    omega
  · unfold pyRoundInt
    rw [← heq]
    split_ifs <;> first | omega | linarith

theorem pyRoundInt_intCast (m : ℤ) : pyRoundInt (m : α) = m := by
  unfold pyRoundInt
  rw [Int.floor_intCast]
  have : (m : α) - m = 0 := by ring
  rw [this]
  norm_num

theorem pyRound_mono (n : ℕ) {x y : α} (h : x ≤ y) : pyRound n x ≤ pyRound n y := by
  unfold pyRound
  have hp : (0 : α) < 10 ^ n := by positivity
  have hm := pyRoundInt_mono (mul_le_mul_of_nonneg_right h hp.le)
  have hc : ((pyRoundInt (x * 10 ^ n) : ℤ) : α) ≤ ((pyRoundInt (y * 10 ^ n) : ℤ) : α) :=
    Int.cast_le.mpr hm
  exact (div_le_div_iff_of_pos_right hp).mpr hc

theorem pyRound_zero (n : ℕ) : pyRound n (0 : α) = 0 := by
  unfold pyRound
  rw [zero_mul, show ((0 : α)) = ((0 : ℤ) : α) by norm_num, pyRoundInt_intCast]
  norm_num

theorem pyRound_one (n : ℕ) : pyRound n (1 : α) = 1 := by
  unfold pyRound
  rw [one_mul, show ((10 : α) ^ n) = (((10 : ℤ) ^ n : ℤ) : α) by push_cast; ring,
    pyRoundInt_intCast]
  have hp : (0 : α) < 10 ^ n := by positivity
  push_cast
  field_simp

theorem pyRound_nonneg (n : ℕ) {x : α} (h : 0 ≤ x) : 0 ≤ pyRound n x := by
  have := pyRound_mono n h
  rwa [pyRound_zero] at this

theorem pyRound_le_one (n : ℕ) {x : α} (h : x ≤ 1) : pyRound n x ≤ 1 := by
  have := pyRound_mono n h
  rwa [pyRound_one] at this

/-- Evaluation helper: when `x * 10^n` is the integer `m`, Python rounding
returns `m / 10^n` exactly. -/
theorem pyRound_eq_of_int (n : ℕ) {x : α} {m : ℤ} (h : x * 10 ^ n = (m : α)) :
    pyRound n x = (m : α) / 10 ^ n := by
  rw [pyRound, h, pyRoundInt_intCast]

end PyRound

example : pyRound 3 ((1 : ℚ) / 5) = 1 / 5 := by
  rw [pyRound_eq_of_int 3 (show (1 : ℚ) / 5 * 10 ^ 3 = ((200 : ℤ) : ℚ) by norm_num)]
  norm_num

example : pyRound 3 ((7 : ℚ) / 10) = 7 / 10 := by
  rw [pyRound_eq_of_int 3 (show (7 : ℚ) / 10 * 10 ^ 3 = ((700 : ℤ) : ℚ) by norm_num)]
  norm_num

/-! ## Data model

Structures mirroring the Python input dicts / pandas frame and the result
dicts of `ModelService`. -/

/-- The single-row pandas DataFrame fed to the models
(`model_inference.py` lines 76-82 and 175-181). -/
structure Frame where
  temperature_c : ℚ
  humidity_percent : ℚ
  vpd_kpa : ℚ
  transit_hours : ℚ
  crop_type : String
deriving DecidableEq

/-- Output of one classifier query: `cls_pred = classifier.predict(input)[0]`
(an integer label, `1` = Safe) and `cls_proba = classifier.predict_proba(input)[0]`
(a probability row; `cls_proba[1]` = P(Safe) when present). -/
structure ClsOutput where
  pred : ℤ
  proba : List ℚ
deriving DecidableEq

/-- One element of the `telemetry_points` list consumed by
`predict_per_waypoint`. Keys read with `point[...]` are plain fields; keys
read with `point.get(key, default)` are `Option`s (`none` = key absent). -/
structure TelemetryPoint where
  internal_temp : ℚ
  humidity : ℚ
  lat : ℚ
  lng : ℚ
  exposure_hours : Option ℚ
  cumulative_hours : Option ℚ
  waypoint_num : Option ℕ
  condition : Option String
  cumulative_km : Option ℚ
deriving DecidableEq

/-- The dict returned by `predict_spoilage`. `none` = key absent from the
returned dict (e.g. the error dicts carry no classifier keys, and the
classifier keys exist only when a classifier is loaded). -/
structure SpoilageResult where
  error : Option String := none
  spoilage_risk : ℚ
  days_remaining : Option ℚ := none
  status : Option String := none
  calculated_vpd : Option ℚ := none
  ensemble_used : Option Bool := none
  classification : Option String := none
  safe_probability : Option ℚ := none
  ensemble_confidence : Option ℚ := none
deriving DecidableEq

/-- One `waypoint_data` dict built by `predict_per_waypoint` (lines 221-240).
`classification`/`safe_probability` are `none` both when the classifier is
absent (keys not added) and when the value stored is Python `None`. -/
structure WaypointRecord where
  waypoint_num : ℕ
  lat : ℚ
  lng : ℚ
  temperature : ℚ
  humidity : ℚ
  vpd : ℚ
  condition : String
  cumulative_km : ℚ
  cumulative_hours : ℚ
  exposure_hours : ℚ
  instant_risk : ℚ
  instant_status : String
  cumulative_risk : ℚ
  classification : Option String := none
  safe_probability : Option ℚ := none
deriving DecidableEq

/-- The dict returned by `analyze_route_risks` for a non-empty input
(lines 271-281). -/
structure RouteAnalysis where
  temp_min : ℚ
  temp_max : ℚ
  temp_variance : ℚ
  highest_risk_waypoint : ℕ
  highest_risk_value : ℚ
  highest_risk_temp : ℚ
  danger_zone_count : ℕ
  danger_hours : ℚ
  route_risk_profile : String
deriving DecidableEq

/-! ## The operations of `ModelService`

The pickled regressor and classifier are opaque artifacts (not part of the
source tree); they are modelled as arbitrary functions `Frame → ℚ` and
`Frame → ClsOutput`, with `Option` for the `self.regressor is None` /
`self.classifier is None` states.  `np.exp` is transcendental, hence not
representable inside ℚ; the ℚ-valued pipeline is parametrized by an
uninterpreted `e : ℚ → ℚ` standing for it, and the claim about the VPD
formula itself is settled over ℝ with `Real.exp` (see `calculate_vpd`). -/

/-- `calculate_vpd` (lines 53-57) over the reals, with the genuine `Real.exp`. -/
noncomputable def calculate_vpd (temp humidity : ℝ) : ℝ :=
  let es := 0.6108 * Real.exp (17.27 * temp / (temp + 237.3))
  let actual_vapor_pressure := es * (humidity / 100)
  pyRound 2 (es - actual_vapor_pressure)

/-- `calculate_vpd` (lines 53-57) over ℚ, with `np.exp` as the uninterpreted
parameter `e`. -/
def calculate_vpd_with (e : ℚ → ℚ) (temp humidity : ℚ) : ℚ :=
  let es := 0.6108 * e (17.27 * temp / (temp + 237.3))
  let actual_vapor_pressure := es * (humidity / 100)
  pyRound 2 (es - actual_vapor_pressure)

/-- `risk_score = min(max(risk_score, 0.0), 1.0)` (lines 87 and 186). -/
def clamp01 (risk_score : ℚ) : ℚ := min (max risk_score 0) 1

/-- `safe_probability = cls_proba[1] if len(cls_proba) > 1 else cls_proba[0]`
(lines 99 and 194), on a non-empty probability row `p₀ :: rest`. -/
def safeProbOf (p₀ : ℚ) (rest : List ℚ) : ℚ :=
  match rest with
  | [] => p₀
  | p₁ :: _ => p₁

/-- The final status decision (lines 124-130, identically lines 212-219):
Critical if risk > 0.7 or the classification is "Spoiled", else Warning if
risk > 0.3, else Safe.  `classification = none` is Python `None`
(`None == "Spoiled"` is `False`). -/
def statusOf (risk_score : ℚ) (classification : Option String) : String :=
  if 0.7 < risk_score ∨ classification = some "Spoiled" then "Critical"
  else if 0.3 < risk_score then "Warning"
  else "Safe"

/-- Ensemble confidence (lines 105-113). -/
def ensembleConfidence (regressor_says_safe classifier_says_safe : Bool)
    (safe_probability risk_score : ℚ) : ℚ :=
  if regressor_says_safe = classifier_says_safe then
    0.7 + (if classifier_says_safe then 0.3 * safe_probability else 0.3 * (1 - safe_probability))
  else
    0.4 + 0.1 * |risk_score - 0.5|

/-- Disagreement adjustment of the risk score in `predict_spoilage`
(lines 116-119). -/
def adjustRisk (classification : String) (risk_score : ℚ) : ℚ :=
  if classification = "Spoiled" ∧ risk_score < 0.4 then (risk_score + 0.4) / 2
  else if classification = "Safe" ∧ 0.6 < risk_score then (risk_score + 0.5) / 2
  else risk_score

/-- The input frame assembled by `predict_spoilage` (lines 75-82). -/
def spoilageInput (e : ℚ → ℚ) (temperature humidity transit_hours : ℚ)
    (crop_type : String) : Frame :=
  { temperature_c := temperature
    humidity_percent := humidity
    vpd_kpa := calculate_vpd_with e temperature humidity
    transit_hours := transit_hours
    crop_type := crop_type }

/-- `ModelService.predict_spoilage` (lines 59-150).  The only step of the
`try` block that can raise in this model is the indexing of an empty
probability row, mapped to the `except` branch's `{"error", "spoilage_risk": 0}`
dict (line 150, which carries no `status` key). -/
def predict_spoilage (e : ℚ → ℚ) (regressor : Option (Frame → ℚ))
    (classifier : Option (Frame → ClsOutput))
    (temperature humidity transit_hours : ℚ) (crop_type : String) : SpoilageResult :=
  match regressor with
  | none => { error := some "Model not loaded", spoilage_risk := 0, status := some "Unknown" }
  | some reg =>
    let vpd := calculate_vpd_with e temperature humidity
    let input_data := spoilageInput e temperature humidity transit_hours crop_type
    let risk_score := clamp01 (reg input_data)
    match classifier with
    | none =>
      { spoilage_risk := pyRound 3 risk_score
        days_remaining := some (pyRound 1 (10 * (1 - risk_score)))
        status := some (statusOf risk_score none)
        calculated_vpd := some vpd
        ensemble_used := some false }
    | some cls =>
      match (cls input_data).proba with
      | [] => { error := some "index out of range", spoilage_risk := 0 }
      | p₀ :: rest =>
        let safe_probability := safeProbOf p₀ rest
        let classification := if (cls input_data).pred = 1 then "Safe" else "Spoiled"
        let regressor_says_safe : Bool := decide (risk_score < 0.3)
        let classifier_says_safe : Bool := decide ((cls input_data).pred = 1)
        let confidence :=
          ensembleConfidence regressor_says_safe classifier_says_safe safe_probability risk_score
        let risk := adjustRisk classification risk_score
        { spoilage_risk := pyRound 3 risk
          days_remaining := some (pyRound 1 (10 * (1 - risk)))
          status := some (statusOf risk (some classification))
          calculated_vpd := some vpd
          ensemble_used := some true
          classification := some classification
          safe_probability := some (pyRound 3 safe_probability)
          ensemble_confidence := some (pyRound 3 confidence) }

/-- The input frame assembled per waypoint (lines 175-181): transit hours are
the waypoint's cumulative hours floored at 1. -/
def waypointInput (e : ℚ → ℚ) (crop_type : String) (point : TelemetryPoint) : Frame :=
  { temperature_c := point.internal_temp
    humidity_percent := point.humidity
    vpd_kpa := calculate_vpd_with e point.internal_temp point.humidity
    transit_hours := max (point.cumulative_hours.getD 0) 1
    crop_type := crop_type }

/-- The `try` block of the per-waypoint loop (lines 183-205): returns
`(instant_risk, classification, safe_prob)`.  The per-waypoint adjustment
(lines 197-199) differs from `predict_spoilage`: only the "Spoiled but
risk < 0.4" case is handled, averaging with 0.5.  An empty probability row is
the `except` branch (lines 201-205): zero risk, both classifier values `None`. -/
def waypointTry (reg : Frame → ℚ) (classifier : Option (Frame → ClsOutput))
    (input_data : Frame) : ℚ × Option String × Option ℚ :=
  let instant_risk := clamp01 (reg input_data)
  match classifier with
  | none => (instant_risk, none, none)
  | some cls =>
    match (cls input_data).proba with
    | [] => (0, none, none)
    | p₀ :: rest =>
      let safe_prob := safeProbOf p₀ rest
      let classification := if (cls input_data).pred = 1 then "Safe" else "Spoiled"
      let adjusted :=
        if classification = "Spoiled" ∧ instant_risk < 0.4 then (instant_risk + 0.5) / 2
        else instant_risk
      (adjusted, some classification, some safe_prob)

/-- One iteration of the `for i, point in enumerate(telemetry_points)` loop
(lines 167-242): builds the waypoint record and the updated running
`cumulative_exposure_risk`.  (The loop's `danger_count` local is incremented
at line 215 but never returned, so it is not modelled.) -/
def waypointStep (e : ℚ → ℚ) (reg : Frame → ℚ) (classifier : Option (Frame → ClsOutput))
    (crop_type : String) (total_transit_hours : ℚ) (i : ℕ) (point : TelemetryPoint)
    (cumulative_exposure_risk : ℚ) : WaypointRecord × ℚ :=
  let exposure_hrs := point.exposure_hours.getD 0
  let cumulative_hrs := point.cumulative_hours.getD 0
  let input_data := waypointInput e crop_type point
  let t := waypointTry reg classifier input_data
  let instant_risk := t.1
  let classification := t.2.1
  let safe_prob := t.2.2
  let cum :=
    if 0 < exposure_hrs then
      cumulative_exposure_risk +
        instant_risk * (if 0 < total_transit_hours then exposure_hrs / total_transit_hours else 0)
    else cumulative_exposure_risk
  let record : WaypointRecord :=
    { waypoint_num := point.waypoint_num.getD (i + 1)
      lat := point.lat
      lng := point.lng
      temperature := point.internal_temp
      humidity := point.humidity
      vpd := input_data.vpd_kpa
      condition := point.condition.getD "Unknown"
      cumulative_km := point.cumulative_km.getD 0
      cumulative_hours := cumulative_hrs
      exposure_hours := exposure_hrs
      instant_risk := pyRound 3 instant_risk
      instant_status := statusOf instant_risk classification
      cumulative_risk := pyRound 3 (min cum 1)
      classification := classification
      safe_probability :=
        match safe_prob with
        | none => none
        | some p => if p = 0 then none else some (pyRound 3 p) }
  (record, cum)

/-- The whole per-waypoint loop, threading the enumeration index and the
running cumulative risk. -/
def waypointLoop (e : ℚ → ℚ) (reg : Frame → ℚ) (classifier : Option (Frame → ClsOutput))
    (crop_type : String) (total_transit_hours : ℚ) :
    ℕ → ℚ → List TelemetryPoint → List WaypointRecord
  | _, _, [] => []
  | i, cum, point :: rest =>
    let s := waypointStep e reg classifier crop_type total_transit_hours i point cum
    s.1 :: waypointLoop e reg classifier crop_type total_transit_hours (i + 1) s.2 rest

/-- `ModelService.predict_per_waypoint` (lines 152-244).  Note that when the
regressor is missing the function returns the empty list (line 161), not an
error record. -/
def predict_per_waypoint (e : ℚ → ℚ) (regressor : Option (Frame → ℚ))
    (classifier : Option (Frame → ClsOutput)) (telemetry_points : List TelemetryPoint)
    (crop_type : String) (total_transit_hours : ℚ) : List WaypointRecord :=
  match regressor with
  | none => []
  | some reg => waypointLoop e reg classifier crop_type total_transit_hours 0 0 telemetry_points

/-- Python `min` over a non-empty list `x :: xs`. -/
def listMin (x : ℚ) (xs : List ℚ) : ℚ := xs.foldl min x

/-- Python `max` over a non-empty list `x :: xs`. -/
def listMax (x : ℚ) (xs : List ℚ) : ℚ := xs.foldl max x

/-- `ModelService.analyze_route_risks` (lines 246-281); `none` is the empty
dict returned for an empty input (line 251). -/
def analyze_route_risks (waypoint_predictions : List WaypointRecord) : Option RouteAnalysis :=
  match waypoint_predictions with
  | [] => none
  | p :: ps =>
    let preds := p :: ps
    let risks := preds.map (·.instant_risk)
    let min_temp := listMin p.temperature (ps.map (·.temperature))
    let max_temp := listMax p.temperature (ps.map (·.temperature))
    let temp_variance := max_temp - min_temp
    let max_risk := listMax p.instant_risk (ps.map (·.instant_risk))
    let max_risk_idx := risks.indexOf max_risk
    let highest_risk_point := preds.getD max_risk_idx p
    let danger_zones := preds.filter (fun q => decide (0.5 < q.instant_risk))
    let danger_hours := (danger_zones.map (·.exposure_hours)).sum
    some
      { temp_min := pyRound 1 min_temp
        temp_max := pyRound 1 max_temp
        temp_variance := pyRound 1 temp_variance
        highest_risk_waypoint := highest_risk_point.waypoint_num
        highest_risk_value := pyRound 3 max_risk
        highest_risk_temp := highest_risk_point.temperature
        danger_zone_count := danger_zones.length
        danger_hours := pyRound 2 danger_hours
        route_risk_profile :=
          if 10 < temp_variance then "High Variance"
          else if 5 < temp_variance then "Moderate"
          else "Stable" }

/-! ## Supporting lemmas -/

theorem clamp01_mem (x : ℚ) : 0 ≤ clamp01 x ∧ clamp01 x ≤ 1 :=
  ⟨le_min (le_max_right x 0) zero_le_one, min_le_right _ 1⟩

theorem adjustRisk_mem (c : String) {r : ℚ} (h0 : 0 ≤ r) (h1 : r ≤ 1) :
    0 ≤ adjustRisk c r ∧ adjustRisk c r ≤ 1 := by
  unfold adjustRisk
  split_ifs with h h'
  · obtain ⟨-, hr⟩ := h
    constructor <;> linarith
  · obtain ⟨-, hr⟩ := h'
    constructor <;> linarith
  · exact ⟨h0, h1⟩

theorem waypointTry_fst_mem (reg : Frame → ℚ) (classifier : Option (Frame → ClsOutput))
    (input_data : Frame) :
    0 ≤ (waypointTry reg classifier input_data).1 ∧ (waypointTry reg classifier input_data).1 ≤ 1 := by
  obtain ⟨hc0, hc1⟩ := clamp01_mem (reg input_data)
  rcases classifier with _ | cls
  · simpa only [waypointTry] using ⟨hc0, hc1⟩
  · rcases hp : (cls input_data).proba with _ | ⟨p₀, rest⟩
    · simp [waypointTry, hp]
    · simp only [waypointTry, hp]
      split_ifs with h1 h2 h3
      · exact absurd h2.1 (by decide)
      · exact ⟨hc0, hc1⟩
      · obtain ⟨-, hr⟩ := h3
        constructor <;> linarith
      · exact ⟨hc0, hc1⟩

theorem waypointStep_fst_cumulative (e : ℚ → ℚ) (reg : Frame → ℚ)
    (classifier : Option (Frame → ClsOutput)) (crop : String) (total : ℚ) (i : ℕ)
    (p : TelemetryPoint) (cum : ℚ) :
    (waypointStep e reg classifier crop total i p cum).1.cumulative_risk =
      pyRound 3 (min (waypointStep e reg classifier crop total i p cum).2 1) := rfl

theorem waypointStep_fst_instant (e : ℚ → ℚ) (reg : Frame → ℚ)
    (classifier : Option (Frame → ClsOutput)) (crop : String) (total : ℚ) (i : ℕ)
    (p : TelemetryPoint) (cum : ℚ) :
    (waypointStep e reg classifier crop total i p cum).1.instant_risk =
      pyRound 3 (waypointTry reg classifier (waypointInput e crop p)).1 := rfl

/-- The running cumulative exposure risk never decreases across one loop
iteration: the contribution added at line 210 is a product of two
non-negative factors. -/
theorem waypointStep_cum_le (e : ℚ → ℚ) (reg : Frame → ℚ)
    (classifier : Option (Frame → ClsOutput)) (crop : String) (total : ℚ) (i : ℕ)
    (p : TelemetryPoint) (cum : ℚ) :
    cum ≤ (waypointStep e reg classifier crop total i p cum).2 := by
  simp only [waypointStep]
  split_ifs with h1 h2
  · have hi := (waypointTry_fst_mem reg classifier (waypointInput e crop p)).1
    have hw : (0 : ℚ) ≤ p.exposure_hours.getD 0 / total := div_nonneg h1.le h2.le
    nlinarith [mul_nonneg hi hw]
  · have hi := (waypointTry_fst_mem reg classifier (waypointInput e crop p)).1
    nlinarith [mul_nonneg hi (le_refl (0 : ℚ))]
  · exact le_rfl

theorem waypointLoop_instant_mem (e : ℚ → ℚ) (reg : Frame → ℚ)
    (classifier : Option (Frame → ClsOutput)) (crop : String) (total : ℚ) :
    ∀ (pts : List TelemetryPoint) (i : ℕ) (cum : ℚ) (r : WaypointRecord),
      r ∈ waypointLoop e reg classifier crop total i cum pts →
      0 ≤ r.instant_risk ∧ r.instant_risk ≤ 1 := by
  intro pts
  induction pts with
  | nil =>
    intro i cum r hr
    simp [waypointLoop] at hr
  | cons p rest ih =>
    intro i cum r hr
    simp only [waypointLoop, List.mem_cons] at hr
    rcases hr with rfl | hr'
    · rw [waypointStep_fst_instant]
      obtain ⟨h0, h1⟩ := waypointTry_fst_mem reg classifier (waypointInput e crop p)
      exact ⟨pyRound_nonneg 3 h0, pyRound_le_one 3 h1⟩
    · exact ih _ _ _ hr'

theorem waypointLoop_cum_risk_ge (e : ℚ → ℚ) (reg : Frame → ℚ)
    (classifier : Option (Frame → ClsOutput)) (crop : String) (total : ℚ) :
    ∀ (pts : List TelemetryPoint) (i : ℕ) (cum : ℚ) (r : WaypointRecord),
      r ∈ waypointLoop e reg classifier crop total i cum pts →
      pyRound 3 (min cum 1) ≤ r.cumulative_risk := by
  intro pts
  induction pts with
  | nil =>
    intro i cum r hr
    simp [waypointLoop] at hr
  | cons p rest ih =>
    intro i cum r hr
    simp only [waypointLoop, List.mem_cons] at hr
    have hstep := waypointStep_cum_le e reg classifier crop total i p cum
    rcases hr with rfl | hr'
    · rw [waypointStep_fst_cumulative]
      exact pyRound_mono 3 (min_le_min hstep le_rfl)
    · calc pyRound 3 (min cum 1)
          ≤ pyRound 3 (min (waypointStep e reg classifier crop total i p cum).2 1) :=
            pyRound_mono 3 (min_le_min hstep le_rfl)
        _ ≤ r.cumulative_risk := ih _ _ _ hr'

theorem waypointLoop_cum_risk_le_one (e : ℚ → ℚ) (reg : Frame → ℚ)
    (classifier : Option (Frame → ClsOutput)) (crop : String) (total : ℚ) :
    ∀ (pts : List TelemetryPoint) (i : ℕ) (cum : ℚ) (r : WaypointRecord),
      r ∈ waypointLoop e reg classifier crop total i cum pts → r.cumulative_risk ≤ 1 := by
  intro pts
  induction pts with
  | nil =>
    intro i cum r hr
    simp [waypointLoop] at hr
  | cons p rest ih =>
    intro i cum r hr
    simp only [waypointLoop, List.mem_cons] at hr
    rcases hr with rfl | hr'
    · rw [waypointStep_fst_cumulative]
      exact pyRound_le_one 3 (min_le_right _ 1)
    · exact ih _ _ _ hr'

theorem waypointLoop_chain (e : ℚ → ℚ) (reg : Frame → ℚ)
    (classifier : Option (Frame → ClsOutput)) (crop : String) (total : ℚ) :
    ∀ (pts : List TelemetryPoint) (i : ℕ) (cum : ℚ),
      List.Chain' (fun a b => a.cumulative_risk ≤ b.cumulative_risk)
        (waypointLoop e reg classifier crop total i cum pts) := by
  intro pts
  induction pts with
  | nil =>
    intro i cum
    simp [waypointLoop]
  | cons p rest ih =>
    intro i cum
    simp only [waypointLoop]
    rw [List.chain'_cons']
    refine ⟨?_, ih _ _⟩
    intro b hb
    have hbmem := List.mem_of_mem_head? hb
    have hge := waypointLoop_cum_risk_ge e reg classifier crop total rest (i + 1)
      (waypointStep e reg classifier crop total i p cum).2 b hbmem
    rw [waypointStep_fst_cumulative]
    exact hge

/-! ## Claims -/

/-- C1: for every input feature vector and every raw regressor output of any
magnitude, when the regressor is loaded, the `spoilage_risk` returned by
`predict_spoilage` lies in [0,1] inclusive (including after the
disagreement-correction averaging and in the internal-failure dict), and every
`instant_risk` in the records returned by `predict_per_waypoint` lies in [0,1]. -/
theorem c1_risk_scores_in_unit_interval
    (e : ℚ → ℚ) (reg : Frame → ℚ) (classifier : Option (Frame → ClsOutput))
    (temperature humidity transit_hours : ℚ) (crop_type : String)
    (pts : List TelemetryPoint) (total : ℚ) :
    (0 ≤ (predict_spoilage e (some reg) classifier temperature humidity transit_hours
        crop_type).spoilage_risk ∧
      (predict_spoilage e (some reg) classifier temperature humidity transit_hours
        crop_type).spoilage_risk ≤ 1) ∧
    ∀ r ∈ predict_per_waypoint e (some reg) classifier pts crop_type total,
      0 ≤ r.instant_risk ∧ r.instant_risk ≤ 1 := by
  constructor
  · obtain ⟨hc0, hc1⟩ :=
      clamp01_mem (reg (spoilageInput e temperature humidity transit_hours crop_type))
    rcases classifier with _ | cls
    · simp only [predict_spoilage]
      exact ⟨pyRound_nonneg 3 hc0, pyRound_le_one 3 hc1⟩
    · rcases hp : (cls (spoilageInput e temperature humidity transit_hours crop_type)).proba
        with _ | ⟨p₀, rest⟩
      · simp only [predict_spoilage, hp]
        norm_num
      · simp only [predict_spoilage, hp]
        obtain ⟨h0, h1⟩ := adjustRisk_mem
          (if (cls (spoilageInput e temperature humidity transit_hours crop_type)).pred = 1
            then "Safe" else "Spoiled") hc0 hc1
        exact ⟨pyRound_nonneg 3 h0, pyRound_le_one 3 h1⟩
  · intro r hr
    simp only [predict_per_waypoint] at hr
    exact waypointLoop_instant_mem e reg classifier crop_type total pts 0 0 r hr

/-- Witness for C1 at a concrete input: a raw regressor output of 2 (clamped
to 1), classifier absent, one telemetry point. -/
theorem c1_witness :
    (0 ≤ (predict_spoilage (fun _ => 1) (some fun _ => 2) none 25 100 5
        "Strawberry").spoilage_risk ∧
      (predict_spoilage (fun _ => 1) (some fun _ => 2) none 25 100 5
        "Strawberry").spoilage_risk ≤ 1) ∧
    (0 ≤ (WaypointRecord.mk 1 0 0 25 100 0 "Unknown" 0 0 0 1 "Critical" 0
        none none).instant_risk ∧
      (WaypointRecord.mk 1 0 0 25 100 0 "Unknown" 0 0 0 1 "Critical" 0
        none none).instant_risk ≤ 1) := by
  have h := c1_risk_scores_in_unit_interval (fun _ => 1) (fun _ => 2) none 25 100 5
    "Strawberry" [TelemetryPoint.mk 25 100 0 0 (some 0) (some 0) none none none] 10
  refine ⟨h.1, h.2 _ ?_⟩
  norm_num [predict_per_waypoint, waypointLoop, waypointStep, waypointTry, waypointInput,
    calculate_vpd_with, clamp01, statusOf, max_def, min_def, pyRound_zero, pyRound_one]

/-- C2: whenever the classifier is loaded and its prediction at the evaluated
input frame is not the Safe label (`cls_pred ≠ 1`, i.e. classification
"Spoiled"), `predict_spoilage` reports status "Critical" — for every raw
regressor output, in particular when the (possibly adjusted) risk is below 0.3. -/
theorem c2_spoiled_forces_critical
    (e : ℚ → ℚ) (reg : Frame → ℚ) (pred : ℤ) (p₀ : ℚ) (rest : List ℚ)
    (temperature humidity transit_hours : ℚ) (crop_type : String)
    (hpred : pred ≠ 1) :
    (predict_spoilage e (some reg) (some fun _ => ⟨pred, p₀ :: rest⟩)
        temperature humidity transit_hours crop_type).status = some "Critical" := by
  simp only [predict_spoilage]
  rw [if_neg hpred]
  unfold statusOf
  rw [if_pos (Or.inr rfl)]

/-- Witness for C2: classifier label 0 ("Spoiled"), raw regressor risk 0. -/
theorem c2_witness :
    (0 : ℤ) ≠ 1 ∧
    (predict_spoilage (fun _ => 1) (some fun _ => 0) (some fun _ => ⟨0, [1/2]⟩)
        25 50 5 "Strawberry").status = some "Critical" :=
  ⟨by decide,
    c2_spoiled_forces_critical (fun _ => 1) (fun _ => 0) 0 (1/2) [] 25 50 5 "Strawberry"
      (by decide)⟩

/-- C3 counterexample: at temperature 0 °C and (out-of-range) humidity 200 %,
`calculate_vpd` returns a strictly negative value — the code has no
`max(0, ...)` clamp (line 57 returns `round(es - actual_vapor_pressure, 2)`
directly). -/
theorem c3_counterexample : calculate_vpd 0 200 < 0 := by
  simp only [calculate_vpd]
  have he : (17.27 : ℝ) * 0 / (0 + 237.3) = 0 := by norm_num
  rw [he, Real.exp_zero]
  have harg : (0.6108 : ℝ) * 1 - 0.6108 * 1 * (200 / 100) = -0.6108 := by norm_num
  rw [harg]
  have hfl : ⌊(-0.6108 : ℝ) * 10 ^ 2⌋ = -62 := by
    rw [Int.floor_eq_iff]
    constructor <;> norm_num
  unfold pyRound pyRoundInt
  rw [hfl]
  norm_num

/-- C3 amended: for every temperature and every humidity not exceeding 100 %,
`calculate_vpd` is non-negative; above 100 % humidity it can go negative
(see the counterexample). -/
theorem c3_amended_vpd_nonneg (temp humidity : ℝ) (h : humidity ≤ 100) :
    0 ≤ calculate_vpd temp humidity := by
  simp only [calculate_vpd]
  have hes : (0 : ℝ) < 0.6108 * Real.exp (17.27 * temp / (temp + 237.3)) :=
    mul_pos (by norm_num) (Real.exp_pos _)
  have h2 : (0 : ℝ) ≤ (0.6108 * Real.exp (17.27 * temp / (temp + 237.3))) * (1 - humidity / 100) :=
    mul_nonneg hes.le (by linarith)
  exact pyRound_nonneg 2 (by nlinarith [h2])

/-- Witness for the amended C3 at temperature 0 °C and humidity 50 %. -/
theorem c3_amended_witness : (50 : ℝ) ≤ 100 ∧ 0 ≤ calculate_vpd 0 50 :=
  ⟨by norm_num, c3_amended_vpd_nonneg 0 50 (by norm_num)⟩

/-- C4 amended: with the regressor missing, `predict_spoilage` returns the
well-formed zero-risk dict with `status = "Unknown"` and the explicit error
marker, but `predict_per_waypoint` returns the empty list instead — no record
and no error marker at all. -/
theorem c4_amended_model_unavailable
    (e : ℚ → ℚ) (classifier : Option (Frame → ClsOutput))
    (temperature humidity transit_hours : ℚ) (crop_type : String)
    (pts : List TelemetryPoint) (total : ℚ) :
    predict_spoilage e none classifier temperature humidity transit_hours crop_type =
      { error := some "Model not loaded", spoilage_risk := 0, status := some "Unknown" } ∧
    predict_per_waypoint e none classifier pts crop_type total = [] :=
  ⟨rfl, rfl⟩

/-- C4 counterexample: with the regressor missing and a non-empty route,
`predict_per_waypoint` returns `[]` — it does not return any zero-risk
"Unknown" record carrying an error marker. -/
theorem c4_counterexample :
    predict_per_waypoint (fun _ => 1) none none
      [TelemetryPoint.mk 25 50 0 0 (some 1) (some 1) none none none] "Strawberry" 10 = [] :=
  rfl

/-- `adjustRisk` at the "Safe" classification (lines 118-119): only the
high-risk pull-down branch can fire. -/
theorem adjustRisk_safe (r : ℚ) :
    adjustRisk "Safe" r = if 0.6 < r then (r + 0.5) / 2 else r := by
  unfold adjustRisk
  rw [if_neg (fun h => absurd h.1 (by decide))]
  by_cases h : (0.6 : ℚ) < r
  · rw [if_pos ⟨rfl, h⟩, if_pos h]
  · rw [if_neg (fun hc => absurd hc.2 h), if_neg h]

/-- `adjustRisk` at the "Spoiled" classification (lines 116-117): only the
low-risk pull-up branch can fire. -/
theorem adjustRisk_spoiled (r : ℚ) :
    adjustRisk "Spoiled" r = if r < 0.4 then (r + 0.4) / 2 else r := by
  unfold adjustRisk
  by_cases h : r < (0.4 : ℚ)
  · rw [if_pos ⟨rfl, h⟩, if_pos h]
  · rw [if_neg (fun hc => absurd hc.2 h), if_neg (fun hc => absurd hc.1 (by decide)), if_neg h]

/-- The status thresholds of lines 124-130 as closed intervals, for any
classification other than "Spoiled": Safe on risk ≤ 0.3, Warning on
(0.3, 0.7], Critical above 0.7. -/
theorem statusOf_bucket (r : ℚ) (c : Option String) (hc : c ≠ some "Spoiled") :
    (r ≤ 0.3 → statusOf r c = "Safe") ∧
    (0.3 < r → r ≤ 0.7 → statusOf r c = "Warning") ∧
    (0.7 < r → statusOf r c = "Critical") := by
  unfold statusOf
  refine ⟨?_, ?_, ?_⟩
  · intro h
    rw [if_neg (by push_neg; exact ⟨by linarith, hc⟩), if_neg (by linarith)]
  · intro h1 h2
    rw [if_neg (by push_neg; exact ⟨by linarith, hc⟩), if_pos h1]
  · intro h
    rw [if_pos (Or.inl h)]

/-- C5 counterexample: identical feature input (25 °C, 50 %, 5 cumulative
hours), raw regressor risk 0 and a "Spoiled" classifier verdict give adjusted
risk (0 + 0.4)/2 = 0.2 in `predict_spoilage` but (0 + 0.5)/2 = 0.25 in
`predict_per_waypoint` — the two corrections differ. -/
theorem c5_counterexample :
    (predict_spoilage (fun _ => 1) (some fun _ => 0) (some fun _ => ⟨0, [1/2, 1/2]⟩)
        25 50 5 "Strawberry").spoilage_risk = 1/5 ∧
    (predict_per_waypoint (fun _ => 1) (some fun _ => 0) (some fun _ => ⟨0, [1/2, 1/2]⟩)
        [TelemetryPoint.mk 25 50 0 0 (some 1) (some 5) none none none] "Strawberry" 5).map
      (·.instant_risk) = [1/4] ∧
    (1 : ℚ)/5 ≠ 1/4 := by
  have h1 : pyRound 3 ((1 : ℚ) / 5) = 1 / 5 := by
    rw [pyRound_eq_of_int 3 (show ((1 : ℚ) / 5) * 10 ^ 3 = ((200 : ℤ) : ℚ) by norm_num)]
    norm_num
  have h2 : pyRound 3 ((1 : ℚ) / 4) = 1 / 4 := by
    rw [pyRound_eq_of_int 3 (show ((1 : ℚ) / 4) * 10 ^ 3 = ((250 : ℤ) : ℚ) by norm_num)]
    norm_num
  refine ⟨?_, ?_, by norm_num⟩
  · norm_num [predict_spoilage, clamp01, adjustRisk, max_def, min_def, h1]
  · norm_num [predict_per_waypoint, waypointLoop, waypointStep, waypointTry, waypointInput,
      clamp01, max_def, min_def, h2]

/-- C5 amended: per waypoint, the only disagreement correction is the
"Spoiled with clamped risk < 0.4" case, and it averages with 0.5 (not 0.4 as
in `predict_spoilage`); there is no correction for a Safe verdict with high
risk.  The instant risk reported for a waypoint is exactly the rounded result
of that rule. -/
theorem c5_amended_per_waypoint_adjustment
    (e : ℚ → ℚ) (reg : Frame → ℚ) (pred : ℤ) (p₀ : ℚ) (rest : List ℚ)
    (pt : TelemetryPoint) (crop_type : String) (total : ℚ) :
    (predict_per_waypoint e (some reg) (some fun _ => ⟨pred, p₀ :: rest⟩) [pt]
        crop_type total).map (·.instant_risk) =
      [pyRound 3
        (if pred ≠ 1 ∧ clamp01 (reg (waypointInput e crop_type pt)) < 0.4
          then (clamp01 (reg (waypointInput e crop_type pt)) + 0.5) / 2
          else clamp01 (reg (waypointInput e crop_type pt)))] := by
  simp only [predict_per_waypoint, waypointLoop, waypointStep, waypointTry, List.map]
  rcases eq_or_ne pred 1 with hp | hp
  · subst hp; simp
  · simp [hp]

/-- C6 counterexample: with the classifier absent and raw regressor risk
exactly 0.3, the returned status is "Safe", not "Warning" — the Warning
bucket is left-open at 0.3 (`elif risk_score > 0.3`, line 127). -/
theorem c6_counterexample :
    (predict_spoilage (fun _ => 1) (some fun _ => 3/10) none 25 50 5 "Strawberry").status ≠
      some "Warning" ∧
    (predict_spoilage (fun _ => 1) (some fun _ => 3/10) none 25 50 5 "Strawberry").status =
      some "Safe" := by
  have h : (predict_spoilage (fun _ => 1) (some fun _ => 3/10) none 25 50 5
      "Strawberry").status = some "Safe" := by
    simp only [predict_spoilage]
    norm_num [clamp01, statusOf, max_def, min_def]
    exact fun h => nomatch h
  exact ⟨by rw [h]; simp, h⟩

/-- C6 amended: with the classifier absent (first conjunct) the status
buckets the clamped risk `r` with Safe on r ≤ 0.3 (the boundary 0.3 is Safe,
not Warning), Warning on 0.3 < r ≤ 0.7, Critical on r > 0.7; with the
classifier present and reporting the Safe label (second conjunct) the same
left-open buckets apply to the adjusted final risk `radj`. -/
theorem c6_amended_status_buckets
    (e : ℚ → ℚ) (reg : Frame → ℚ) (temperature humidity transit_hours : ℚ)
    (crop_type : String) (p₀ : ℚ) (rest : List ℚ) (r radj : ℚ)
    (hr : r = clamp01 (reg (spoilageInput e temperature humidity transit_hours crop_type)))
    (hradj : radj = if 0.6 < r then (r + 0.5) / 2 else r) :
    ((r ≤ 0.3 →
        (predict_spoilage e (some reg) none temperature humidity transit_hours
          crop_type).status = some "Safe") ∧
      (0.3 < r → r ≤ 0.7 →
        (predict_spoilage e (some reg) none temperature humidity transit_hours
          crop_type).status = some "Warning") ∧
      (0.7 < r →
        (predict_spoilage e (some reg) none temperature humidity transit_hours
          crop_type).status = some "Critical")) ∧
    ((radj ≤ 0.3 →
        (predict_spoilage e (some reg) (some fun _ => ⟨1, p₀ :: rest⟩) temperature humidity
          transit_hours crop_type).status = some "Safe") ∧
      (0.3 < radj → radj ≤ 0.7 →
        (predict_spoilage e (some reg) (some fun _ => ⟨1, p₀ :: rest⟩) temperature humidity
          transit_hours crop_type).status = some "Warning") ∧
      (0.7 < radj →
        (predict_spoilage e (some reg) (some fun _ => ⟨1, p₀ :: rest⟩) temperature humidity
          transit_hours crop_type).status = some "Critical")) := by
  subst hradj
  subst hr
  constructor
  · have hb := statusOf_bucket
      (clamp01 (reg (spoilageInput e temperature humidity transit_hours crop_type))) none
      (by simp)
    refine ⟨fun h => ?_, fun h1 h2 => ?_, fun h => ?_⟩ <;>
      simp only [predict_spoilage]
    · rw [hb.1 h]
    · rw [hb.2.1 h1 h2]
    · rw [hb.2.2 h]
  · have hb := statusOf_bucket
      (if 0.6 < clamp01 (reg (spoilageInput e temperature humidity transit_hours crop_type))
        then (clamp01 (reg (spoilageInput e temperature humidity transit_hours crop_type)) + 0.5) / 2
        else clamp01 (reg (spoilageInput e temperature humidity transit_hours crop_type)))
      (some "Safe") (by simp)
    refine ⟨fun h => ?_, fun h1 h2 => ?_, fun h => ?_⟩ <;>
      simp only [predict_spoilage, eq_self_iff_true, if_true, adjustRisk_safe]
    · rw [hb.1 h]
    · rw [hb.2.1 h1 h2]
    · rw [hb.2.2 h]

/-- Witness for the amended C6 at clamped risk exactly 1/2: Warning in both
the classifier-absent and Safe-label configurations. -/
theorem c6_amended_witness :
    (1 : ℚ)/2 = clamp01 ((fun _ => (1 : ℚ)/2) (spoilageInput (fun _ => 1) 25 50 5 "Strawberry")) ∧
    (predict_spoilage (fun _ => 1) (some fun _ => (1 : ℚ)/2) none 25 50 5 "Strawberry").status =
      some "Warning" ∧
    (predict_spoilage (fun _ => 1) (some fun _ => (1 : ℚ)/2) (some fun _ => ⟨1, [9/10]⟩)
        25 50 5 "Strawberry").status = some "Warning" := by
  have hr : (1 : ℚ)/2 =
      clamp01 ((fun _ => (1 : ℚ)/2) (spoilageInput (fun _ => 1) 25 50 5 "Strawberry")) := by
    norm_num [clamp01, max_def, min_def]
  have h := c6_amended_status_buckets (fun _ => 1) (fun _ => (1 : ℚ)/2) 25 50 5 "Strawberry"
    (9/10) [] (1/2) (1/2) hr (by norm_num)
  exact ⟨hr, h.1.2.1 (by norm_num) (by norm_num), h.2.2.1 (by norm_num) (by norm_num)⟩

/-- C7: within one call to `predict_per_waypoint` the `cumulative_risk`
values are non-decreasing in route order and never exceed 1.0, for every
waypoint list, every raw model output and all non-negative exposure hours.
(The code's `if exposure_hrs > 0` guard (line 208) makes the conclusion hold
even without the non-negativity hypothesis, which is kept to match the
claim.) -/
theorem c7_cumulative_risk_monotone_capped
    (e : ℚ → ℚ) (regressor : Option (Frame → ℚ)) (classifier : Option (Frame → ClsOutput))
    (pts : List TelemetryPoint) (crop_type : String) (total : ℚ)
    (hexp : ∀ p ∈ pts, 0 ≤ p.exposure_hours.getD 0) :
    List.Chain' (fun a b => a.cumulative_risk ≤ b.cumulative_risk)
      (predict_per_waypoint e regressor classifier pts crop_type total) ∧
    ∀ r ∈ predict_per_waypoint e regressor classifier pts crop_type total,
      r.cumulative_risk ≤ 1 := by
  rcases regressor with _ | reg
  · simp [predict_per_waypoint]
  · constructor
    · simpa only [predict_per_waypoint] using
        waypointLoop_chain e reg classifier crop_type total pts 0 0
    · intro r hr
      simp only [predict_per_waypoint] at hr
      exact waypointLoop_cum_risk_le_one e reg classifier crop_type total pts 0 0 r hr

/-- Witness for C7: a two-waypoint route with 5 h exposure each out of 10 h
total and constant raw risk 1; the recorded cumulative risks are 0.5 then 1.0. -/
theorem c7_witness :
    List.Chain' (fun a b => a.cumulative_risk ≤ b.cumulative_risk)
      (predict_per_waypoint (fun _ => 1) (some fun _ => 1) none
        [TelemetryPoint.mk 25 100 0 0 (some 5) none none none none,
         TelemetryPoint.mk 25 100 0 0 (some 5) none none none none] "Strawberry" 10) ∧
    (WaypointRecord.mk 2 0 0 25 100 0 "Unknown" 0 0 5 1 "Critical" 1 none none).cumulative_risk
      ≤ 1 := by
  have h := c7_cumulative_risk_monotone_capped (fun _ => 1) (some fun _ => 1) none
    [TelemetryPoint.mk 25 100 0 0 (some 5) none none none none,
     TelemetryPoint.mk 25 100 0 0 (some 5) none none none none] "Strawberry" 10
    (by intro p hp; simp at hp; rcases hp with rfl | rfl <;> norm_num)
  have hhalf : pyRound 3 ((1 : ℚ) / 2) = 1 / 2 := by
    rw [pyRound_eq_of_int 3 (show ((1 : ℚ) / 2) * 10 ^ 3 = ((500 : ℤ) : ℚ) by norm_num)]
    norm_num
  refine ⟨h.1, h.2 _ ?_⟩
  norm_num [predict_per_waypoint, waypointLoop, waypointStep, waypointTry, waypointInput,
    calculate_vpd_with, clamp01, statusOf, max_def, min_def, pyRound_zero, pyRound_one, hhalf]

/-- If `c` is representable at `n` decimal digits, any value at least `c`
rounds to at least `c`. -/
theorem le_pyRound_of_le {α : Type} [LinearOrderedField α] [FloorRing α] (n : ℕ)
    {c v : α} {m : ℤ} (hc : c * 10 ^ n = (m : α)) (h : c ≤ v) : c ≤ pyRound n v := by
  have h10 : (0 : α) < 10 ^ n := by positivity
  have hcv : pyRound n c = c := by
    rw [pyRound_eq_of_int n hc, ← hc]
    field_simp
  calc c = pyRound n c := hcv.symm
    _ ≤ pyRound n v := pyRound_mono n h

/-- If `c` is representable at `n` decimal digits, any value at most `c`
rounds to at most `c`. -/
theorem pyRound_le_of_le {α : Type} [LinearOrderedField α] [FloorRing α] (n : ℕ)
    {c v : α} {m : ℤ} (hc : c * 10 ^ n = (m : α)) (h : v ≤ c) : pyRound n v ≤ c := by
  have h10 : (0 : α) < 10 ^ n := by positivity
  have hcv : pyRound n c = c := by
    rw [pyRound_eq_of_int n hc, ← hc]
    field_simp
  calc pyRound n v ≤ pyRound n c := pyRound_mono n h
    _ = c := hcv

/-- C8: with the classifier loaded and a safe probability in [0,1]: if the
regressor's Safe verdict (clamped risk < 0.3) agrees with the classifier's
label, the reported ensemble confidence is `0.7 + 0.3·sp` (respectively its
complement), which lies in [0.7, 1]; if they disagree, it is
`0.4 + 0.1·|risk − 0.5|`, strictly below 0.5.  The reported field carries the
value rounded to 3 decimals, which preserves all three bounds. -/
theorem c8_ensemble_confidence
    (e : ℚ → ℚ) (reg : Frame → ℚ) (pred : ℤ) (p₀ : ℚ) (rest : List ℚ)
    (temperature humidity transit_hours : ℚ) (crop_type : String)
    (sp r : ℚ)
    (hsp : sp = safeProbOf p₀ rest) (hsp0 : 0 ≤ sp) (hsp1 : sp ≤ 1)
    (hr : r = clamp01 (reg (spoilageInput e temperature humidity transit_hours crop_type))) :
    ((r < 0.3 ↔ pred = 1) →
      (predict_spoilage e (some reg) (some fun _ => ⟨pred, p₀ :: rest⟩)
          temperature humidity transit_hours crop_type).ensemble_confidence =
        some (pyRound 3 (0.7 + (if pred = 1 then 0.3 * sp else 0.3 * (1 - sp)))) ∧
      0.7 ≤ pyRound 3 (0.7 + (if pred = 1 then 0.3 * sp else 0.3 * (1 - sp))) ∧
      pyRound 3 (0.7 + (if pred = 1 then 0.3 * sp else 0.3 * (1 - sp))) ≤ 1) ∧
    (¬(r < 0.3 ↔ pred = 1) →
      (predict_spoilage e (some reg) (some fun _ => ⟨pred, p₀ :: rest⟩)
          temperature humidity transit_hours crop_type).ensemble_confidence =
        some (pyRound 3 (0.4 + 0.1 * |r - 0.5|)) ∧
      pyRound 3 (0.4 + 0.1 * |r - 0.5|) < 0.5) := by
  have h07 : (0.7 : ℚ) * 10 ^ 3 = ((700 : ℤ) : ℚ) := by norm_num
  have h045 : (0.45 : ℚ) * 10 ^ 3 = ((450 : ℤ) : ℚ) := by norm_num
  obtain ⟨hr0, hr1⟩ :=
    clamp01_mem (reg (spoilageInput e temperature humidity transit_hours crop_type))
  constructor
  · intro hagree
    have hb : decide (clamp01 (reg (spoilageInput e temperature humidity transit_hours
        crop_type)) < 0.3) = decide (pred = 1) := by
      rw [← hr]; exact decide_eq_decide.mpr hagree
    refine ⟨?_, ?_, ?_⟩
    · simp only [predict_spoilage, ensembleConfidence, if_pos hb, decide_eq_true_eq, hsp, hr]
    · apply le_pyRound_of_le 3 h07
      split_ifs <;> linarith
    · apply pyRound_le_one
      split_ifs <;> linarith
  · intro hdis
    have hb : ¬(decide (clamp01 (reg (spoilageInput e temperature humidity transit_hours
        crop_type)) < 0.3) = decide (pred = 1)) := by
      rw [← hr]; exact fun hcontra => hdis (decide_eq_decide.mp hcontra)
    constructor
    · simp only [predict_spoilage, ensembleConfidence, if_neg hb, hsp, hr]
    · have habs : |r - 0.5| ≤ 0.5 := by
        rw [abs_le]
        constructor <;> [linarith [hr0, hr.symm ▸ hr0]; linarith [hr1, hr.symm ▸ hr1]]
      have hle : (0.4 : ℚ) + 0.1 * |r - 0.5| ≤ 0.45 := by linarith
      calc pyRound 3 ((0.4 : ℚ) + 0.1 * |r - 0.5|) ≤ 0.45 := pyRound_le_of_le 3 h045 hle
        _ < 0.5 := by norm_num

/-- Witness for C8, agreement branch: raw risk 0 (Safe verdict), classifier
label Safe with safe probability 0.8; confidence 0.7 + 0.3·0.8 = 0.94. -/
theorem c8_witness :
    (0 : ℚ) ≤ 4/5 ∧ (4 : ℚ)/5 ≤ 1 ∧ ((0 : ℚ) < 0.3 ↔ (1 : ℤ) = 1) ∧
    ((predict_spoilage (fun _ => 1) (some fun _ => 0) (some fun _ => ⟨1, [3/10, 4/5]⟩)
        25 50 5 "Strawberry").ensemble_confidence =
      some (pyRound 3 ((0.7 : ℚ) + (if (1 : ℤ) = 1 then 0.3 * (4/5) else 0.3 * (1 - 4/5)))) ∧
    (0.7 : ℚ) ≤ pyRound 3 ((0.7 : ℚ) + (if (1 : ℤ) = 1 then 0.3 * (4/5) else 0.3 * (1 - 4/5))) ∧
    pyRound 3 ((0.7 : ℚ) + (if (1 : ℤ) = 1 then 0.3 * (4/5) else 0.3 * (1 - 4/5))) ≤ 1) := by
  refine ⟨by norm_num, by norm_num, by norm_num, ?_⟩
  exact (c8_ensemble_confidence (fun _ => 1) (fun _ => 0) 1 (3/10) [4/5] 25 50 5 "Strawberry"
    (4/5) 0 (by simp [safeProbOf]) (by norm_num) (by norm_num)
    (by norm_num [clamp01, max_def, min_def])).1 (by norm_num)

/-- Evaluation helper: if `x·10^n` lies within [m, m + 1/2) for an integer
`m`, Python rounding returns `m / 10^n`. -/
theorem pyRound_eq_of_close {α : Type} [LinearOrderedField α] [FloorRing α] (n : ℕ)
    {x : α} {m : ℤ} (h1 : (m : α) ≤ x * 10 ^ n) (h2 : x * 10 ^ n - m < 1 / 2) :
    pyRound n x = (m : α) / 10 ^ n := by
  have hfl : ⌊x * 10 ^ n⌋ = m := by
    rw [Int.floor_eq_iff]
    refine ⟨h1, ?_⟩
    linarith
  unfold pyRound pyRoundInt
  rw [hfl, if_pos h2]

/-- C9 counterexample: a single danger-zone record with exposure 0.001 h has
`danger_hours = round(0.001, 2) = 0`, which differs from the exact sum 0.001
of the danger records' exposure hours. -/
theorem c9_counterexample :
    (analyze_route_risks
        [WaypointRecord.mk 1 0 0 25 50 0 "Unknown" 0 0 (1/1000) 1 "Critical" 1 none none]).map
      (·.danger_hours) = some 0 ∧
    (([WaypointRecord.mk 1 0 0 25 50 0 "Unknown" 0 0 (1/1000) 1 "Critical" 1 none none].filter
        (fun q => decide (0.5 < q.instant_risk))).map (·.exposure_hours)).sum = 1/1000 ∧
    (0 : ℚ) ≠ 1/1000 := by
  have h : pyRound 2 ((1 : ℚ)/1000) = 0 := by
    have := pyRound_eq_of_close 2 (x := (1 : ℚ)/1000) (m := 0) (by norm_num) (by norm_num)
    simpa using this
  refine ⟨?_, ?_, by norm_num⟩
  · simp only [analyze_route_risks, Option.map_some']
    norm_num [List.filter_cons, h]
  · norm_num [List.filter_cons]

/-- C9 amended: for every non-empty record list, `danger_zone_count` is
exactly the number of records with `instant_risk > 0.5`, and `danger_hours`
is the sum of the exposure hours of exactly those records, rounded to
2 decimals (line 279) — not the exact sum. -/
theorem c9_amended_danger_zones (p : WaypointRecord) (ps : List WaypointRecord) :
    (analyze_route_risks (p :: ps)).map (·.danger_zone_count) =
      some ((p :: ps).countP (fun q => decide (0.5 < q.instant_risk))) ∧
    (analyze_route_risks (p :: ps)).map (·.danger_hours) =
      some (pyRound 2 (((p :: ps).filter (fun q => decide (0.5 < q.instant_risk))).map
        (·.exposure_hours)).sum) := by
  constructor
  · simp only [analyze_route_risks, Option.map_some']
    rw [List.countP_eq_length_filter]
  · simp only [analyze_route_risks, Option.map_some']

/-- C10: in `predict_per_waypoint`, a classifier safe probability of exactly
0.0 makes the record's `safe_probability` field `None` (Python falsy check
`round(safe_prob, 3) if safe_prob else None`, line 240) — indistinguishable
from a scoring failure — while any strictly positive safe probability is
reported as its 3-decimal rounding. -/
theorem c10_zero_safe_probability_is_none
    (e : ℚ → ℚ) (reg : Frame → ℚ) (pred : ℤ) (p₀ : ℚ) (rest : List ℚ)
    (pt : TelemetryPoint) (crop_type : String) (total : ℚ) (sp : ℚ)
    (hsp : sp = safeProbOf p₀ rest) :
    (sp = 0 →
      (predict_per_waypoint e (some reg) (some fun _ => ⟨pred, p₀ :: rest⟩) [pt] crop_type
        total).map (·.safe_probability) = [none]) ∧
    (0 < sp →
      (predict_per_waypoint e (some reg) (some fun _ => ⟨pred, p₀ :: rest⟩) [pt] crop_type
        total).map (·.safe_probability) = [some (pyRound 3 sp)]) := by
  subst hsp
  constructor
  · intro h0
    simp only [predict_per_waypoint, waypointLoop, waypointStep, waypointTry, List.map]
    simp [h0]
  · intro hpos
    simp only [predict_per_waypoint, waypointLoop, waypointStep, waypointTry, List.map]
    simp [hpos.ne']

/-- Witness for C10: proba row [0.5, 0] gives safe probability 0 and a `None`
field; proba row [0.5, 0.75] gives safe probability 0.75 and the rounded
numeric field. -/
theorem c10_witness :
    ((0 : ℚ) = safeProbOf (1/2) [0] ∧
      (predict_per_waypoint (fun _ => 1) (some fun _ => 0) (some fun _ => ⟨0, [1/2, 0]⟩)
        [TelemetryPoint.mk 25 50 0 0 (some 1) (some 1) none none none] "Strawberry" 10).map
        (·.safe_probability) = [none]) ∧
    ((3 : ℚ)/4 = safeProbOf (1/2) [3/4] ∧ (0 : ℚ) < 3/4 ∧
      (predict_per_waypoint (fun _ => 1) (some fun _ => 0) (some fun _ => ⟨0, [1/2, 3/4]⟩)
        [TelemetryPoint.mk 25 50 0 0 (some 1) (some 1) none none none] "Strawberry" 10).map
        (·.safe_probability) = [some (pyRound 3 ((3 : ℚ)/4))]) := by
  refine ⟨⟨by simp [safeProbOf], ?_⟩, ⟨by simp [safeProbOf], by norm_num, ?_⟩⟩
  · exact (c10_zero_safe_probability_is_none (fun _ => 1) (fun _ => 0) 0 (1/2) [0]
      (TelemetryPoint.mk 25 50 0 0 (some 1) (some 1) none none none) "Strawberry" 10 0
      (by simp [safeProbOf])).1 rfl
  · exact (c10_zero_safe_probability_is_none (fun _ => 1) (fun _ => 0) 0 (1/2) [3/4]
      (TelemetryPoint.mk 25 50 0 0 (some 1) (some 1) none none none) "Strawberry" 10 (3/4)
      (by simp [safeProbOf])).2 (by norm_num)
